import Mathlib

/-!
Shallow embedding of the order-lifecycle and admin-authorization core of the
ecommerce-api repository (Express + TypeScript + Mongoose).

Conventions of the embedding:
* Monetary amounts (`price`, `subtotal`, `tax`, `shippingCost`, `total`) are
  modelled as exact rationals `ℚ`; the source computes them with JS number
  arithmetic using only `+`, `*` and comparison, which this mirrors symbolically.
* JS truthiness tests (`x || y`, `if (x)`) on numbers and strings are translated
  explicitly: `0`, `""`, `undefined` are falsy.
* Asynchronous store calls are passed in as explicit function arguments
  (catalog lookup, user lookup, insert outcome), so every definition is a pure,
  executable function of its inputs.
-/

namespace ECommerce

/-! ## Identity / auth data model (src/models/User.ts, src/services/auth.service.ts) -/

/-- Role enumeration of the User schema: `'admin' | 'customer' | 'none'`. -/
inductive Role where
  | admin
  | customer
  | none
deriving Repr, DecidableEq

/-- String form of a role, as stored in a JWT payload (`user.role`). -/
def Role.str : Role → String
  | .admin => "admin"
  | .customer => "customer"
  | .none => "none"

/-- JWT payload shape (`TokenPayload` in auth.service.ts). -/
structure TokenPayload where
  userId : String
  email : String
  role : String
deriving Repr, DecidableEq

/-- Identity record (the fields of `IUser` the auth flow reads). -/
structure User where
  id : String
  email : String
  name : String
  picture : Option String
  role : Role
deriving Repr, DecidableEq

/-- Environment of the auth service: the JWT verifier (`jwt.verify` with the
configured secret; `Option.none` models a throw on a malformed or expired
token), the identity-store lookup `User.findById`, and the configured
`allowedAdminEmails` list. -/
structure AuthEnv where
  verify : String → Option TokenPayload
  findUserById : String → Option User
  allowedAdminEmails : List String

/-- `String.prototype.toLowerCase()` restricted to the ASCII range, as an
explicit map over the character list. -/
def lowerAscii (s : String) : String :=
  String.mk (s.data.map Char.toLower)

/-- `AuthService.isAdminEmail`: membership of the lower-cased email in the
configured admin allow-list. -/
def isAdminEmail (env : AuthEnv) (email : String) : Bool :=
  env.allowedAdminEmails.contains (lowerAscii email)

/-- `AuthService.validateAdminAccess`: verify the JWT, require the embedded
role claim to be `admin`, re-fetch the live user record, require its stored
role to be `admin`, and re-check the admin allow-list. Any verification throw
is caught and reported as `(false, none)`. Returns `{ isAdmin, user? }`. -/
def validateAdminAccess (env : AuthEnv) (token : String) : Bool × Option User :=
  match env.verify token with
  | Option.none => (false, Option.none)
  | some payload =>
    if payload.role ≠ "admin" then (false, Option.none)
    else
      match env.findUserById payload.userId with
      | Option.none => (false, Option.none)
      | some user =>
        if user.role ≠ Role.admin then (false, Option.none)
        else if ¬ isAdminEmail env user.email then (false, Option.none)
        else (true, some user)

/-- Outcome of an auth middleware: HTTP 401, HTTP 403, or pass-through with
`req.user` set. -/
inductive GateResult where
  | unauthorized (error : String)
  | forbidden (error : String)
  | allowed (user : TokenPayload)
deriving Repr, DecidableEq

/-- `getToken` helper of src/middleware/auth.ts: prefer the `auth_token`
cookie, fall back to a `Bearer` authorization header. An empty cookie string
is falsy in JS and falls through to the header. -/
def getToken (cookieToken : Option String) (authHeader : Option String) : Option String :=
  let fromHeader : Option String :=
    match authHeader with
    | some h => if h.startsWith "Bearer " then some (h.drop 7) else Option.none
    | Option.none => Option.none
  match cookieToken with
  | some c => if c = "" then fromHeader else some c
  | Option.none => fromHeader

/-- `requireAdmin` middleware: 401 when no (or an empty, hence falsy) token is
presented; otherwise run `validateAdminAccess` and answer 403 unless it grants
admin, in which case `req.user` is rebuilt from the fetched record. The
`(true, none)` branch cannot be produced by `validateAdminAccess`; it is
mapped to the middleware's catch-all 403 (`user!._id` would throw). -/
def requireAdmin (env : AuthEnv) (token? : Option String) : GateResult :=
  match token? with
  | Option.none => .unauthorized "No token provided"
  | some token =>
    if token = "" then .unauthorized "No token provided"
    else
      match validateAdminAccess env token with
      | (true, some user) => .allowed ⟨user.id, user.email, user.role.str⟩
      | (true, Option.none) => .forbidden "Admin access denied"
      | (false, _) => .forbidden "Admin access required"

/-- `optionalAuth` middleware: when a (truthy) token is present and verifies,
set `req.user`; an invalid token is silently ignored and the request continues
unauthenticated. -/
def optionalAuth (env : AuthEnv) (token? : Option String) : Option TokenPayload :=
  match token? with
  | some token => if token = "" then Option.none else env.verify token
  | Option.none => Option.none

/-! ## Order data model (src/models/Order.ts) -/

/-- Order status enumeration of the current Order schema:
`['pending', 'processing', 'delivered', 'cancelled']`. -/
inductive OrderStatus where
  | pending
  | processing
  | delivered
  | cancelled
deriving Repr, DecidableEq

/-- Status enumeration of the older schema variant that additionally has
`shipped` between `processing` and `delivered`. -/
inductive OrderStatusLegacy where
  | pending
  | processing
  | shipped
  | delivered
  | cancelled
deriving Repr, DecidableEq

/-- Payment status enumeration: `['pending', 'paid', 'failed', 'refunded']`. -/
inductive PaymentStatus where
  | pending
  | paid
  | failed
  | refunded
deriving Repr, DecidableEq

/-- `IShippingAddress`: city, state and postalCode are optional in the schema
(regional defaults are applied at order creation). -/
structure ShippingAddress where
  firstName : String
  lastName : String
  email : String
  phone : String
  address : String
  city : Option String
  state : Option String
  postalCode : Option String
  country : String
deriving Repr, DecidableEq

/-- Catalog product, the fields `OrderService.create` reads
(src/models/Product.ts). -/
structure Product where
  name : String
  price : ℚ
  salePrice : Option ℚ
  images : List String
deriving Repr, DecidableEq

/-- One entry of `CreateOrderInput.items`. -/
structure ItemInput where
  productId : String
  quantity : ℕ
  size : Option String
  color : Option String
deriving Repr, DecidableEq

/-- `IOrderItem`: a snapshot of the product taken at creation time. -/
structure OrderItem where
  product : String
  name : String
  price : ℚ
  quantity : ℕ
  size : Option String
  color : Option String
  image : Option String
deriving Repr, DecidableEq

/-- `IOrder`, parametrised by the status enumeration so both schema variants
share one shape. -/
structure OrderG (σ : Type) where
  orderNumber : String
  user : Option String
  guestEmail : Option String
  items : List OrderItem
  shippingAddress : ShippingAddress
  subtotal : ℚ
  shippingCost : ℚ
  tax : ℚ
  total : ℚ
  status : σ
  paymentStatus : PaymentStatus
  paymentMethod : Option String
  paymentId : Option String
  trackingNumber : Option String
  notes : Option String
  createdAt : ℕ
deriving Repr, DecidableEq

/-- Orders of the current schema. -/
abbrev Order := OrderG OrderStatus

/-! ## OrderService (src/services/order.service.ts, current variant) -/

/-- `CreateOrderInput` of order.service.ts. -/
structure CreateOrderInput where
  userId : Option String
  guestEmail : Option String
  items : List ItemInput
  shippingAddress : ShippingAddress
  paymentMethod : Option String
deriving Repr, DecidableEq

/-- Store-level insert failure: the unique-index violation on `orderNumber`,
or any other error. -/
inductive StoreError where
  | duplicateKey
  | other (msg : String)
deriving Repr, DecidableEq

/-- Errors `OrderService.create` can surface: the `Product not found` throw,
or a store failure propagated from `order.save()`. -/
inductive CreateError where
  | productNotFound (productId : String)
  | store (e : StoreError)
deriving Repr, DecidableEq

/-- Outcome the document store returns for one `order.save()` call. -/
inductive SaveOutcome where
  | ok
  | fail (e : StoreError)
deriving Repr, DecidableEq

/-- Unit price snapshotted into a line item:
`product.salePrice || product.price`. A sale price of `0` is falsy in JS, so
the list price is used in that case. -/
def unitPrice (p : Product) : ℚ :=
  match p.salePrice with
  | some s => if s = 0 then p.price else s
  | Option.none => p.price

/-- JS `x || dflt` on an optional string field: `undefined` and `""` are
falsy. -/
def jsOrStr (x : Option String) (dflt : String) : String :=
  match x with
  | some s => if s = "" then dflt else s
  | Option.none => dflt

/-- The item-building loop of `OrderService.create`: resolve each requested
product (a missing one aborts the whole order with the `Product not found`
throw), snapshot name/price/image, and accumulate the subtotal of
`price * quantity` line totals. -/
def buildOrderItems (catalog : String → Option Product) :
    List ItemInput → Except CreateError (List OrderItem × ℚ)
  | [] => .ok ([], 0)
  | item :: rest =>
    match catalog item.productId with
    | Option.none => .error (.productNotFound item.productId)
    | some product =>
      let price := unitPrice product
      let itemTotal := price * (item.quantity : ℚ)
      match buildOrderItems catalog rest with
      | .error e => .error e
      | .ok (items, subtotal) =>
        .ok
          ({ product := item.productId
             name := product.name
             price := price
             quantity := item.quantity
             size := item.size
             color := item.color
             image := product.images.head? } :: items,
           itemTotal + subtotal)

/-- Calendar date parts the order-number derivation reads: `getFullYear()` and
the 1-based month `getMonth() + 1`. -/
structure DateParts where
  year : ℕ
  month : ℕ
deriving Repr, DecidableEq

/-- `String.prototype.padStart(len, c)`: left-pad to at least `len`
characters (a longer string is returned unchanged). -/
def padStart (s : String) (len : ℕ) (c : Char) : String :=
  String.mk (List.replicate (len - s.length) c) ++ s

/-- Order-number derivation of `OrderService.create`:
`ORD-` + year + 2-padded month, then `-` + 6-padded `count + 1` where `count`
is `Order.countDocuments()`, the number of orders existing in the store. -/
def deriveOrderNumber (now : DateParts) (orderCount : ℕ) : String :=
  "ORD-" ++ toString now.year ++ padStart (toString now.month) 2 '0'
    ++ "-" ++ padStart (toString (orderCount + 1)) 6 '0'

/-- Read-only context a single `OrderService.create` call runs in: the catalog
accessor, the current store order count, the wall clock, and the store's
response to the n-th insert attempt (the service performs exactly one). -/
structure CreateContext where
  catalog : String → Option Product
  orderCount : ℕ
  now : DateParts
  createdAt : ℕ
  saveResult : ℕ → SaveOutcome

/-- The order document `OrderService.create` constructs after the item loop:
flat 10% tax, free shipping strictly above 100, `total` as the sum,
Kathmandu-Valley shipping defaults, derived order number, schema defaults
`status = pending` and `paymentStatus = pending`. -/
def mkOrder (ctx : CreateContext) (input : CreateOrderInput)
    (orderItems : List OrderItem) (subtotal : ℚ) : Order :=
  let tax := subtotal * (1 / 10)
  let shippingCost : ℚ := if subtotal > 100 then 0 else 10
  let total := subtotal + tax + shippingCost
  { orderNumber := deriveOrderNumber ctx.now ctx.orderCount
    user :=
      match input.userId with
      | some u => if u = "" then Option.none else some u
      | Option.none => Option.none
    guestEmail := input.guestEmail
    items := orderItems
    shippingAddress :=
      { input.shippingAddress with
        city := some (jsOrStr input.shippingAddress.city "Kathmandu Valley")
        state := some (jsOrStr input.shippingAddress.state "Bagmati")
        country :=
          if input.shippingAddress.country = "" then "Nepal"
          else input.shippingAddress.country }
    subtotal := subtotal
    shippingCost := shippingCost
    tax := tax
    total := total
    status := .pending
    paymentStatus := .pending
    paymentMethod := input.paymentMethod
    paymentId := Option.none
    trackingNumber := Option.none
    notes := Option.none
    createdAt := ctx.createdAt }

namespace OrderService

/-- `OrderService.create`: build the line items (aborting before any write on
a missing product), construct the order document, and call `order.save()`
once; the store's answer to that single attempt is final — a duplicate
order-number rejection is propagated like any other store error. The second
component counts the insert attempts performed (0 or 1). -/
def create (ctx : CreateContext) (input : CreateOrderInput) :
    Except CreateError Order × ℕ :=
  match buildOrderItems ctx.catalog input.items with
  | .error e => (.error e, 0)
  | .ok (orderItems, subtotal) =>
    let order := mkOrder ctx input orderItems subtotal
    match ctx.saveResult 0 with
    | .ok => (.ok order, 1)
    | .fail e => (.error (.store e), 1)

/-- `OrderService.updateStatus`: `findByIdAndUpdate` with `$set: { status }`. -/
def updateStatus (o : Order) (status : OrderStatus) : Order :=
  { o with status := status }

/-- `OrderService.updatePaymentStatus`: `$set` of `paymentStatus`, plus
`paymentId` only when one is (truthily) provided. -/
def updatePaymentStatus (o : Order) (paymentStatus : PaymentStatus)
    (paymentId : Option String) : Order :=
  { o with
    paymentStatus := paymentStatus
    paymentId :=
      match paymentId with
      | some p => if p = "" then o.paymentId else some p
      | Option.none => o.paymentId }

/-- `OrderService.addTrackingNumber` (current variant):
`$set: { trackingNumber }` and nothing else. -/
def addTrackingNumber (o : Order) (trackingNumber : String) : Order :=
  { o with trackingNumber := some trackingNumber }

/-- `OrderService.addTrackingNumber` of the older service variant paired with
the 5-state schema: `$set: { trackingNumber, status: 'shipped' }`. -/
def addTrackingNumberLegacy (o : OrderG OrderStatusLegacy)
    (trackingNumber : String) : OrderG OrderStatusLegacy :=
  { o with trackingNumber := some trackingNumber, status := .shipped }

/-- `OrderService.addNote`: `$set: { notes: note }` — replaces the note. -/
def addNote (o : Order) (note : String) : Order :=
  { o with notes := some note }

end OrderService

/-! ## Order routes (src/routes/order.routes.ts) -/

/-- The body of the public tracking response: exactly the five fields the
`GET /track/:orderNumber` handler copies out of the stored order. -/
structure TrackResponse where
  orderNumber : String
  status : OrderStatus
  paymentStatus : PaymentStatus
  trackingNumber : Option String
  createdAt : ℕ
deriving Repr, DecidableEq

/-- Projection the tracking route applies to a found order. -/
def trackOrderResponse (o : Order) : TrackResponse :=
  { orderNumber := o.orderNumber
    status := o.status
    paymentStatus := o.paymentStatus
    trackingNumber := o.trackingNumber
    createdAt := o.createdAt }

/-- `GET /track/:orderNumber`: unauthenticated lookup by order number; 404
when absent, otherwise the five-field projection. -/
def trackOrderRoute (findByOrderNumber : String → Option Order)
    (orderNumber : String) : Except String TrackResponse :=
  match findByOrderNumber orderNumber with
  | Option.none => .error "Order not found"
  | some o => .ok (trackOrderResponse o)

/-- Parsed request body of `POST /` (createOrderSchema). -/
structure CreateOrderBody where
  items : List ItemInput
  shippingAddress : ShippingAddress
  paymentMethod : Option String
deriving Repr, DecidableEq

/-- `POST /` (public order creation): `optionalAuth` first, then
`orderService.create` with `userId` from the authenticated payload when
present, and `guestEmail` from the shipping address only for unauthenticated
requests. -/
def createOrderRoute (env : AuthEnv) (ctx : CreateContext)
    (token? : Option String) (body : CreateOrderBody) :
    Except CreateError Order × ℕ :=
  let reqUser := optionalAuth env token?
  OrderService.create ctx
    { userId := reqUser.map (fun p => p.userId)
      guestEmail :=
        match reqUser with
        | some _ => Option.none
        | Option.none => some body.shippingAddress.email
      items := body.items
      shippingAddress := body.shippingAddress
      paymentMethod := body.paymentMethod }

/-! ## Helper lemmas -/

/-- Inversion for a successful `create`: the item loop succeeded, the single
insert was accepted, and the result is the constructed document. -/
theorem create_ok_inv (ctx : CreateContext) (input : CreateOrderInput) (o : Order)
    (h : (OrderService.create ctx input).1 = .ok o) :
    ∃ orderItems subtotal,
      buildOrderItems ctx.catalog input.items = .ok (orderItems, subtotal) ∧
      ctx.saveResult 0 = .ok ∧ o = mkOrder ctx input orderItems subtotal := by
  unfold OrderService.create at h
  cases hb : buildOrderItems ctx.catalog input.items with
  | error e => rw [hb] at h; simp at h
  | ok pr =>
    obtain ⟨items, st⟩ := pr
    rw [hb] at h
    cases hs : ctx.saveResult 0 with
    | ok =>
      rw [hs] at h
      simp only [Except.ok.injEq] at h
      exact ⟨items, st, rfl, rfl, h.symm⟩
    | fail e => rw [hs] at h; simp at h

/-- The item loop succeeds exactly when every requested product resolves. -/
theorem buildOrderItems_ok_iff (catalog : String → Option Product) :
    ∀ items : List ItemInput,
      (∃ out, buildOrderItems catalog items = .ok out) ↔
      ∀ it ∈ items, (catalog it.productId).isSome = true := by
  intro items
  induction items with
  | nil => simp [buildOrderItems]
  | cons item rest ih =>
    cases hc : catalog item.productId with
    | none =>
      simp only [buildOrderItems, hc]
      constructor
      · rintro ⟨out, hout⟩; simp at hout
      · intro hall
        have := hall item (by simp)
        rw [hc] at this
        simp at this
    | some p =>
      simp only [buildOrderItems, hc]
      cases hr : buildOrderItems catalog rest with
      | error e =>
        constructor
        · rintro ⟨out, hout⟩; simp at hout
        · intro hall
          have : ∃ out, buildOrderItems catalog rest = .ok out :=
            (ih).mpr (fun it hit => hall it (by simp [hit]))
          rw [hr] at this
          simp at this
      | ok pr =>
        obtain ⟨items', st⟩ := pr
        constructor
        · intro _ it hit
          rcases List.mem_cons.mp hit with h | h
          · subst h; rw [hc]; rfl
          · exact (ih.mp ⟨_, hr⟩) it h
        · intro _; exact ⟨_, rfl⟩

/-- Every error of the item loop is the `Product not found` throw for some
requested item whose catalog lookup came back empty. -/
theorem buildOrderItems_error_inv (catalog : String → Option Product) :
    ∀ (items : List ItemInput) (e : CreateError),
      buildOrderItems catalog items = .error e →
      ∃ it ∈ items, catalog it.productId = Option.none ∧
        e = .productNotFound it.productId := by
  intro items
  induction items with
  | nil => intro e h; simp [buildOrderItems] at h
  | cons item rest ih =>
    intro e h
    cases hc : catalog item.productId with
    | none =>
      simp only [buildOrderItems, hc, Except.error.injEq] at h
      exact ⟨item, by simp, hc, h.symm⟩
    | some p =>
      simp only [buildOrderItems, hc] at h
      cases hr : buildOrderItems catalog rest with
      | error e' =>
        rw [hr] at h
        simp only [Except.error.injEq] at h
        obtain ⟨it, hit, hnone, he⟩ := ih e' hr
        exact ⟨it, by simp [hit], hnone, h ▸ he⟩
      | ok pr => obtain ⟨items', st⟩ := pr; rw [hr] at h; simp at h

/-- Snapshot correspondence of a successful item loop: the produced line items
match the requested items one-to-one (resolved product, `salePrice || price`
snapshot, copied quantity), and the accumulated subtotal is the sum of the
`price * quantity` line totals. -/
theorem buildOrderItems_ok_spec (catalog : String → Option Product) :
    ∀ (items : List ItemInput) (out : List OrderItem) (st : ℚ),
      buildOrderItems catalog items = .ok (out, st) →
      List.Forall₂ (fun (inp : ItemInput) (it : OrderItem) =>
        ∃ p, catalog inp.productId = some p ∧
          it.price = unitPrice p ∧
          it.quantity = inp.quantity ∧
          it.name = p.name ∧
          it.product = inp.productId) items out ∧
      st = (out.map (fun it => it.price * (it.quantity : ℚ))).sum := by
  intro items
  induction items with
  | nil =>
    intro out st h
    simp only [buildOrderItems, Except.ok.injEq, Prod.mk.injEq] at h
    obtain ⟨h1, h2⟩ := h
    subst h1; subst h2
    exact ⟨List.Forall₂.nil, by simp⟩
  | cons item rest ih =>
    intro out st h
    cases hc : catalog item.productId with
    | none => simp [buildOrderItems, hc] at h
    | some p =>
      simp only [buildOrderItems, hc] at h
      cases hr : buildOrderItems catalog rest with
      | error e => rw [hr] at h; simp at h
      | ok pr =>
        obtain ⟨items', st'⟩ := pr
        rw [hr] at h
        simp only [Except.ok.injEq, Prod.mk.injEq] at h
        obtain ⟨h1, h2⟩ := h
        obtain ⟨hfa, hsum⟩ := ih items' st' hr
        subst h1
        constructor
        · exact List.Forall₂.cons ⟨p, hc, rfl, rfl, rfl, rfl⟩ hfa
        · simp only [List.map_cons, List.sum_cons]
          rw [← h2, hsum]

/-- `padStart` pads to the requested width and never truncates. -/
theorem padStart_length (s : String) (len : ℕ) (c : Char) :
    (padStart s len c).length = max len s.length := by
  have h1 : (String.mk (List.replicate (len - s.length) c)).length
      = len - s.length := by
    show (List.replicate (len - s.length) c).length = len - s.length
    exact List.length_replicate _ _
  simp only [padStart, String.length_append, h1]
  omega

/-- `validateAdminAccess` never reports `isAdmin` without the fetched user. -/
theorem validateAdminAccess_fst_true (env : AuthEnv) (token : String)
    (h : (validateAdminAccess env token).1 = true) :
    ∃ user, validateAdminAccess env token = (true, some user) := by
  unfold validateAdminAccess at *
  cases hv : env.verify token with
  | none => simp [hv] at h
  | some payload =>
    by_cases hrole : payload.role = "admin"
    · cases hu : env.findUserById payload.userId with
      | none => simp [hv, hrole, hu] at h
      | some user =>
        by_cases hur : user.role = Role.admin
        · by_cases he : isAdminEmail env user.email
          · exact ⟨user, by simp [hv, hrole, hu, hur, he]⟩
          · simp [hv, hrole, hu, hur, he] at h
        · simp [hv, hrole, hu, hur] at h
    · simp [hv, hrole] at h

/-! ## Claim C1 — admin grant conditions -/

/-- A user whose stored role is admin and whose email is allow-listed. -/
def userStoredAdmin : User :=
  { id := "u1", email := "boss@shop.example", name := "Boss",
    picture := Option.none, role := Role.admin }

/-- Environment where the only verifying token was minted before the user's
promotion, so it still embeds `role: customer`, while the live record and the
allow-list both say admin. -/
def envStaleToken : AuthEnv :=
  { verify := fun t =>
      if t = "tok-before-promotion" then
        some { userId := "u1", email := "boss@shop.example", role := "customer" }
      else Option.none
    findUserById := fun i => if i = "u1" then some userStoredAdmin else Option.none
    allowedAdminEmails := ["boss@shop.example"] }

/-- C1 counterexample: a session credential that verifies, a live record
re-fetched by subject id with stored role admin, and an allow-listed email —
all three checks of the claim pass — yet `validateAdminAccess` denies,
because it additionally requires the role claim *embedded in the token* to be
`admin`. -/
theorem validateAdminAccess_three_checks_cex :
    envStaleToken.verify "tok-before-promotion" =
      some { userId := "u1", email := "boss@shop.example", role := "customer" }
    ∧ envStaleToken.findUserById "u1" = some userStoredAdmin
    ∧ userStoredAdmin.role = Role.admin
    ∧ isAdminEmail envStaleToken "boss@shop.example" = true
    ∧ (validateAdminAccess envStaleToken "tok-before-promotion").1 = false := by
  refine ⟨rfl, rfl, rfl, by decide, by decide⟩

/-- C1 amended: `validateAdminAccess` grants admin access iff *four* checks
pass — the credential verifies, its embedded role claim is `admin`, the live
Identity re-fetched by subject id exists with stored role admin, and the
identity's email is in the current allow-list. Consequently an identity whose
email was removed from the allow-list is denied on the next check even when
the credential and the stored record still say admin. -/
theorem validateAdminAccess_grant_iff (env : AuthEnv) (token : String) :
    ((validateAdminAccess env token).1 = true ↔
      ∃ payload user,
        env.verify token = some payload ∧
        payload.role = "admin" ∧
        env.findUserById payload.userId = some user ∧
        user.role = Role.admin ∧
        isAdminEmail env user.email = true)
    ∧ (∀ payload user,
        env.verify token = some payload →
        env.findUserById payload.userId = some user →
        isAdminEmail env user.email = false →
        (validateAdminAccess env token).1 = false) := by
  constructor
  · constructor
    · intro h
      unfold validateAdminAccess at h
      cases hv : env.verify token with
      | none => simp [hv] at h
      | some payload =>
        by_cases hrole : payload.role = "admin"
        · cases hu : env.findUserById payload.userId with
          | none => simp [hv, hrole, hu] at h
          | some user =>
            by_cases hur : user.role = Role.admin
            · by_cases he : isAdminEmail env user.email
              · exact ⟨payload, user, rfl, hrole, hu, hur, he⟩
              · simp [hv, hrole, hu, hur, he] at h
            · simp [hv, hrole, hu, hur] at h
        · simp [hv, hrole] at h
    · rintro ⟨payload, user, hv, hrole, hu, hur, he⟩
      simp [validateAdminAccess, hv, hrole, hu, hur, he]
  · intro payload user hv hu he
    unfold validateAdminAccess
    by_cases hrole : payload.role = "admin"
    · by_cases hur : user.role = Role.admin
      · simp [hv, hrole, hu, hur, he]
      · simp [hv, hrole, hu, hur]
    · simp [hv, hrole]

/-- A user promoted to admin and then removed from the allow-list. -/
def userRemovedAdmin : User :=
  { id := "u2", email := "ex@shop.example", name := "Ex",
    picture := Option.none, role := Role.admin }

/-- Environment for the removed-from-allow-list scenario: the credential still
embeds `role: admin`, the stored record still says admin, but the allow-list
is now empty. -/
def envRemoved : AuthEnv :=
  { verify := fun t =>
      if t = "tok-admin" then
        some { userId := "u2", email := "ex@shop.example", role := "admin" }
      else Option.none
    findUserById := fun i => if i = "u2" then some userRemovedAdmin else Option.none
    allowedAdminEmails := [] }

/-- C1 witness: applying the amended theorem at the removed-from-allow-list
scenario shows the next Admin Gate check denies despite credential and stored
record both still claiming admin. -/
theorem validateAdminAccess_grant_iff_witness :
    (validateAdminAccess envRemoved "tok-admin").1 = false :=
  (validateAdminAccess_grant_iff envRemoved "tok-admin").2
    { userId := "u2", email := "ex@shop.example", role := "admin" }
    userRemovedAdmin rfl rfl (by decide)

/-! ## Claim C6 — Unauthorized vs Forbidden split of the Admin Gate -/

/-- Discriminates the 401 outcome of the gate. -/
def GateResult.isUnauthorized : GateResult → Bool
  | .unauthorized _ => true
  | _ => false

/-- Environment whose verifier rejects every token (each one malformed or
expired). -/
def envRejectAll : AuthEnv :=
  { verify := fun _ => Option.none
    findUserById := fun _ => Option.none
    allowedAdminEmails := [] }

/-- C6 counterexample: a request presenting an expired/malformed credential is
answered with `Forbidden` (403 `Admin access required`), not `Unauthorized` —
`validateAdminAccess` swallows the verification failure and reports plain
`isAdmin: false`. -/
theorem requireAdmin_invalid_token_cex :
    envRejectAll.verify "expired.jwt.token" = Option.none
    ∧ requireAdmin envRejectAll (some "expired.jwt.token") =
        .forbidden "Admin access required"
    ∧ (requireAdmin envRejectAll (some "expired.jwt.token")).isUnauthorized
        = false := by
  refine ⟨rfl, by decide, by decide⟩

/-- C6 amended: `requireAdmin` answers `Unauthorized` exactly when no (truthy)
token is presented; a presented credential that fails verification, or that
verifies with insufficient privilege, is answered `Forbidden`; a credential
passing `validateAdminAccess` is allowed through. -/
theorem requireAdmin_status (env : AuthEnv) (token? : Option String) :
    ((∃ msg, requireAdmin env token? = .unauthorized msg) ↔
      (token? = Option.none ∨ token? = some ""))
    ∧ (∀ t, token? = some t → t ≠ "" →
        (validateAdminAccess env t).1 = false →
        requireAdmin env token? = .forbidden "Admin access required")
    ∧ (∀ t, token? = some t → t ≠ "" →
        (validateAdminAccess env t).1 = true →
        ∃ u, requireAdmin env token? = .allowed u) := by
  refine ⟨?_, ?_, ?_⟩
  · cases token? with
    | none => simp [requireAdmin]
    | some t =>
      by_cases ht : t = ""
      · subst ht; simp [requireAdmin]
      · rcases hva : validateAdminAccess env t with ⟨fst, snd⟩
        cases fst <;> cases snd <;> simp [requireAdmin, ht, hva]
  · intro t heq ht hva
    subst heq
    rcases h2 : validateAdminAccess env t with ⟨fst, snd⟩
    rw [h2] at hva
    simp only at hva
    subst hva
    cases snd <;> simp [requireAdmin, ht, h2]
  · intro t heq ht hva
    subst heq
    obtain ⟨user, husr⟩ := validateAdminAccess_fst_true env t hva
    exact ⟨⟨user.id, user.email, user.role.str⟩, by simp [requireAdmin, ht, husr]⟩

/-- C6 witness: the amended theorem applied to a concrete rejected token
yields the concrete 403 outcome. -/
theorem requireAdmin_status_witness :
    requireAdmin envRejectAll (some "t1") = .forbidden "Admin access required" :=
  (requireAdmin_status envRejectAll (some "t1")).2.1 "t1" rfl (by decide) rfl

/-! ## Shared order-creation scenario: two items priced 60 and 50 -/

/-- Catalog with the two products of the spec's worked scenario. -/
def catalogA : String → Option Product := fun pid =>
  if pid = "p60" then
    some { name := "Linen Shirt", price := 60, salePrice := Option.none,
           images := ["shirt.jpg"] }
  else if pid = "p50" then
    some { name := "Silk Scarf", price := 50, salePrice := Option.none,
           images := [] }
  else Option.none

/-- A concrete shipping address. -/
def addrA : ShippingAddress :=
  { firstName := "Gita", lastName := "Rai", email := "gita@mail.example",
    phone := "98000", address := "Lazimpat 5", city := Option.none,
    state := Option.none, postalCode := Option.none, country := "Nepal" }

/-- Creation context: empty store, March 2025, store accepts the insert. -/
def ctxA : CreateContext :=
  { catalog := catalogA, orderCount := 0, now := { year := 2025, month := 3 },
    createdAt := 1700000, saveResult := fun _ => .ok }

/-- Guest checkout of one 60-priced and one 50-priced item. -/
def inputA : CreateOrderInput :=
  { userId := Option.none, guestEmail := some "gita@mail.example",
    items :=
      [{ productId := "p60", quantity := 1, size := Option.none, color := Option.none },
       { productId := "p50", quantity := 1, size := Option.none, color := Option.none }],
    shippingAddress := addrA, paymentMethod := Option.none }

/-- The snapshotted line items the scenario produces. -/
def itemsA : List OrderItem :=
  [{ product := "p60", name := "Linen Shirt", price := 60, quantity := 1,
     size := Option.none, color := Option.none, image := some "shirt.jpg" },
   { product := "p50", name := "Silk Scarf", price := 50, quantity := 1,
     size := Option.none, color := Option.none, image := Option.none }]

/-- The order the scenario creates (subtotal 110). -/
def orderA : Order := mkOrder ctxA inputA itemsA 110

/-- Evaluation of the scenario: the service returns exactly `orderA`. -/
theorem createA_eq : (OrderService.create ctxA inputA).1 = Except.ok orderA := by
  simp [OrderService.create, buildOrderItems, unitPrice, mkOrder, jsOrStr,
    ctxA, inputA, catalogA, addrA, orderA, itemsA]
  norm_num

/-! ## Claim C2 — ProductNotFound abort and (no) duplicate-number retry -/

/-- Context whose store rejects the first insert with the `orderNumber`
unique-index violation and would accept a retry. -/
def ctxDup : CreateContext :=
  { ctxA with saveResult := fun n => if n = 0 then .fail .duplicateKey else .ok }

/-- C2 counterexample: on a duplicate-order-number rejection the service does
not retry — it performs exactly one insert attempt and surfaces the store's
duplicate-key error itself (there is no `OrderCreationFailed`), even though
the store would have accepted a second, re-derived attempt. -/
theorem order_create_no_retry_cex :
    ctxDup.saveResult 0 = .fail .duplicateKey
    ∧ ctxDup.saveResult 1 = .ok
    ∧ (OrderService.create ctxDup inputA).1 = .error (.store .duplicateKey)
    ∧ (OrderService.create ctxDup inputA).2 = 1 := by
  refine ⟨rfl, rfl, ?_, ?_⟩ <;>
    simp [OrderService.create, buildOrderItems, unitPrice, ctxDup, ctxA,
      inputA, catalogA]

/-- C2 amended: creation fails with `ProductNotFound` — performing no insert —
exactly when some requested item references a missing catalog product; when
all products resolve, the single insert attempt's store failure (the
duplicate-key rejection included) propagates untouched. -/
theorem order_create_errors (ctx : CreateContext) (input : CreateOrderInput) :
    ((∃ pid, (OrderService.create ctx input).1 = .error (.productNotFound pid)) ↔
      ∃ it ∈ input.items, ctx.catalog it.productId = Option.none)
    ∧ (∀ pid, (OrderService.create ctx input).1 = .error (.productNotFound pid) →
        (OrderService.create ctx input).2 = 0)
    ∧ (∀ e, ctx.saveResult 0 = .fail e →
        (∀ it ∈ input.items, (ctx.catalog it.productId).isSome = true) →
        (OrderService.create ctx input).1 = .error (.store e) ∧
        (OrderService.create ctx input).2 = 1) := by
  refine ⟨⟨?_, ?_⟩, ?_, ?_⟩
  · rintro ⟨pid, hp⟩
    cases hb : buildOrderItems ctx.catalog input.items with
    | error e =>
      obtain ⟨it, hit, hnone, heq⟩ :=
        buildOrderItems_error_inv ctx.catalog input.items e hb
      exact ⟨it, hit, hnone⟩
    | ok pr =>
      obtain ⟨items, st⟩ := pr
      unfold OrderService.create at hp
      rw [hb] at hp
      cases hs : ctx.saveResult 0 with
      | ok => rw [hs] at hp; simp at hp
      | fail e => rw [hs] at hp; simp at hp
  · rintro ⟨it, hit, hnone⟩
    cases hb : buildOrderItems ctx.catalog input.items with
    | error e =>
      obtain ⟨it', hit', hnone', heq⟩ :=
        buildOrderItems_error_inv ctx.catalog input.items e hb
      exact ⟨it'.productId, by simp [OrderService.create, hb, heq]⟩
    | ok pr =>
      exfalso
      have hall := (buildOrderItems_ok_iff ctx.catalog input.items).mp ⟨pr, hb⟩
      have := hall it hit
      rw [hnone] at this
      simp at this
  · intro pid hp
    cases hb : buildOrderItems ctx.catalog input.items with
    | error e => simp [OrderService.create, hb]
    | ok pr =>
      obtain ⟨items, st⟩ := pr
      unfold OrderService.create at hp
      rw [hb] at hp
      cases hs : ctx.saveResult 0 with
      | ok => rw [hs] at hp; simp at hp
      | fail e => rw [hs] at hp; simp at hp
  · intro e hs hall
    obtain ⟨out, hb⟩ := (buildOrderItems_ok_iff ctx.catalog input.items).mpr hall
    obtain ⟨items, st⟩ := out
    constructor <;> simp [OrderService.create, hb, hs]

/-- Context whose store fails the insert with an unrelated error. -/
def ctxOther : CreateContext :=
  { ctxA with saveResult := fun _ => .fail (.other "io failure") }

/-- C2 witness: a non-duplicate store failure likewise propagates untouched
after the single insert attempt. -/
theorem order_create_errors_witness :
    (OrderService.create ctxOther inputA).1 = .error (.store (.other "io failure"))
    ∧ (OrderService.create ctxOther inputA).2 = 1 :=
  (order_create_errors ctxOther inputA).2.2 (.other "io failure") rfl (by decide)

/-! ## Claim C3 — the total equation is created true and never mutated -/

/-- The four monetary fields of an order. -/
def moneyFields (o : Order) : ℚ × ℚ × ℚ × ℚ :=
  (o.subtotal, o.tax, o.shippingCost, o.total)

/-- C3: every created order satisfies `total = subtotal + tax + shippingCost`,
and none of the four monetary fields is changed by `updateStatus`,
`updatePaymentStatus`, `addTrackingNumber` or `addNote`. -/
theorem order_total_invariant (ctx : CreateContext) (input : CreateOrderInput)
    (o : Order) (hc : (OrderService.create ctx input).1 = .ok o) :
    o.total = o.subtotal + o.tax + o.shippingCost
    ∧ (∀ s, moneyFields (OrderService.updateStatus o s) = moneyFields o)
    ∧ (∀ ps pid, moneyFields (OrderService.updatePaymentStatus o ps pid) = moneyFields o)
    ∧ (∀ tn, moneyFields (OrderService.addTrackingNumber o tn) = moneyFields o)
    ∧ (∀ note, moneyFields (OrderService.addNote o note) = moneyFields o) := by
  obtain ⟨items, st, hb, hs, ho⟩ := create_ok_inv ctx input o hc
  subst ho
  exact ⟨rfl, fun _ => rfl, fun _ _ => rfl, fun _ => rfl, fun _ => rfl⟩

/-- C3 witness: the invariant instantiated on the concrete 60+50 scenario. -/
theorem order_total_invariant_witness :
    (OrderService.create ctxA inputA).1 = Except.ok orderA
    ∧ orderA.total = orderA.subtotal + orderA.tax + orderA.shippingCost :=
  ⟨createA_eq, (order_total_invariant ctxA inputA orderA createA_eq).1⟩

/-! ## Claim C4 — flat 10% tax (unrounded) and the shipping threshold -/

/-- Rounding a monetary amount to currency precision (cents, nearest,
half-up) — the operation denoted by the spec's `round(subtotal * 0.10,
precision)`. Stated from the spec for comparison: the code applies no
rounding at all. -/
def roundToCurrency (q : ℚ) : ℚ :=
  ((round (q * 100) : ℤ) : ℚ) / 100

/-- Catalog with a single product priced 10.05. -/
def catalogCents : String → Option Product := fun pid =>
  if pid = "pc" then
    some { name := "Hair Clip", price := 201 / 20, salePrice := Option.none,
           images := [] }
  else Option.none

/-- Context for the 10.05 purchase. -/
def ctxCents : CreateContext := { ctxA with catalog := catalogCents }

/-- Purchase of one 10.05 item. -/
def inputCents : CreateOrderInput :=
  { inputA with
    items := [{ productId := "pc", quantity := 1, size := Option.none,
                color := Option.none }] }

/-- C4 counterexample: an order with subtotal 10.05 gets tax 1.005 — a value
that no rounding to whole cents can produce (its fractional cent part is 1/2),
and which differs from `roundToCurrency (subtotal * 0.10)`; the code stores
`subtotal * 0.1` unrounded. -/
theorem order_tax_unrounded_cex :
    ((OrderService.create ctxCents inputCents).1.toOption.map
        (fun o => (o.subtotal, o.tax))) = some (201 / 20, 201 / 200)
    ∧ roundToCurrency ((201 / 20 : ℚ) * (1 / 10)) ≠ (201 / 200 : ℚ)
    ∧ Int.fract ((201 / 200 : ℚ) * 100) = 1 / 2 := by
  refine ⟨?_, ?_, ?_⟩
  · simp [OrderService.create, buildOrderItems, unitPrice, mkOrder, jsOrStr,
      Except.toOption, ctxCents, ctxA, inputCents, inputA, catalogCents, addrA]
    norm_num
  · norm_num [roundToCurrency, round_eq]
  · norm_num [Int.fract]

/-- C4 amended: for every created order, `tax = subtotal * 0.10` exactly (no
rounding is applied), and `shippingCost = 0` iff `subtotal > 100`, else 10. -/
theorem order_tax_flat_shipping_threshold (ctx : CreateContext)
    (input : CreateOrderInput) (o : Order)
    (hc : (OrderService.create ctx input).1 = .ok o) :
    o.tax = o.subtotal * (1 / 10)
    ∧ (o.shippingCost = 0 ↔ o.subtotal > 100)
    ∧ (¬ o.subtotal > 100 → o.shippingCost = 10) := by
  obtain ⟨items, st, hb, hs, ho⟩ := create_ok_inv ctx input o hc
  subst ho
  refine ⟨rfl, ?_, ?_⟩
  · show (if st > 100 then (0 : ℚ) else 10) = 0 ↔ st > 100
    split_ifs with h
    · simp [h]
    · simp [h]
  · intro h
    show (if st > 100 then (0 : ℚ) else 10) = 10
    exact if_neg h

/-- C4 witness: the spec's worked scenario — items priced 60 and 50, subtotal
110 — yields tax exactly 11, shippingCost 0 and total exactly 121. -/
theorem order_tax_flat_shipping_witness :
    orderA.tax = orderA.subtotal * (1 / 10)
    ∧ orderA.subtotal = 110 ∧ orderA.tax = 11
    ∧ orderA.shippingCost = 0 ∧ orderA.total = 121 := by
  refine ⟨(order_tax_flat_shipping_threshold ctxA inputA orderA createA_eq).1,
    ?_, ?_, ?_, ?_⟩ <;>
    norm_num [orderA, mkOrder]

/-! ## Claim C5 — order-number format -/

/-- C5: every successfully created order's number is `ORD-`, the year, the
two-digit zero-padded month, a hyphen, and the six-digit zero-padded value of
`orderCount + 1`; the padded sequence part has exactly six characters whenever
`orderCount + 1` has at most six digits. -/
theorem order_number_format (ctx : CreateContext) (input : CreateOrderInput)
    (o : Order) (hc : (OrderService.create ctx input).1 = .ok o) :
    o.orderNumber =
      "ORD-" ++ toString ctx.now.year ++ padStart (toString ctx.now.month) 2 '0'
        ++ "-" ++ padStart (toString (ctx.orderCount + 1)) 6 '0'
    ∧ ((toString (ctx.orderCount + 1)).length ≤ 6 →
        (padStart (toString (ctx.orderCount + 1)) 6 '0').length = 6) := by
  obtain ⟨items, st, hb, hs, ho⟩ := create_ok_inv ctx input o hc
  subst ho
  refine ⟨rfl, fun h => ?_⟩
  rw [padStart_length]
  omega

/-- C5 witness: the first order of March 2025 in an empty store is numbered
`ORD-202503-000001`. -/
theorem order_number_format_witness :
    orderA.orderNumber = "ORD-202503-000001"
    ∧ (padStart (toString (ctxA.orderCount + 1)) 6 '0').length = 6 := by
  have h := order_number_format ctxA inputA orderA createA_eq
  refine ⟨?_, h.2 (by decide)⟩
  rw [h.1]
  decide

/-! ## Claim C7 — price snapshotting and subtotal -/

/-- C7 amended: each line item of a created order snapshots the catalog's sale
price when one is present *and nonzero* (`salePrice || price` — a zero sale
price is falsy and falls back to the list price), copies the requested
quantity, and the order's subtotal is the sum of `price * quantity` over the
line items. -/
theorem order_items_snapshot (ctx : CreateContext) (input : CreateOrderInput)
    (o : Order) (hc : (OrderService.create ctx input).1 = .ok o) :
    List.Forall₂ (fun (inp : ItemInput) (it : OrderItem) =>
      ∃ p, ctx.catalog inp.productId = some p ∧
        it.price = (match p.salePrice with
          | some s => if s = 0 then p.price else s
          | Option.none => p.price)
        ∧ it.quantity = inp.quantity
        ∧ it.name = p.name
        ∧ it.product = inp.productId) input.items o.items
    ∧ o.subtotal = (o.items.map (fun it => it.price * (it.quantity : ℚ))).sum := by
  obtain ⟨items, st, hb, hs, ho⟩ := create_ok_inv ctx input o hc
  subst ho
  have hspec := buildOrderItems_ok_spec ctx.catalog input.items items st hb
  exact ⟨hspec.1, hspec.2⟩

/-- Catalog where the only product carries a (falsy) sale price of zero. -/
def catalogZeroSale : String → Option Product := fun pid =>
  if pid = "pz" then
    some { name := "Promo Tee", price := 50, salePrice := some 0, images := [] }
  else Option.none

/-- Context for the zero-sale-price purchase. -/
def ctxZeroSale : CreateContext := { ctxA with catalog := catalogZeroSale }

/-- Purchase of one zero-sale-price item. -/
def inputZeroSale : CreateOrderInput :=
  { inputA with
    items := [{ productId := "pz", quantity := 1, size := Option.none,
                color := Option.none }] }

/-- C7 counterexample: the catalog product has `salePrice` *present* (value
0), yet the snapshotted unit price is the list price 50, not the sale price —
`product.salePrice || product.price` treats 0 as absent. -/
theorem order_item_zero_saleprice_cex :
    catalogZeroSale "pz" =
      some { name := "Promo Tee", price := 50, salePrice := some 0, images := [] }
    ∧ ((OrderService.create ctxZeroSale inputZeroSale).1.toOption.map
        (fun o => o.items.map (fun it => it.price))) = some [50]
    ∧ (50 : ℚ) ≠ 0 := by
  refine ⟨rfl, ?_, by norm_num⟩
  simp [OrderService.create, buildOrderItems, unitPrice, mkOrder, jsOrStr,
    Except.toOption, ctxZeroSale, ctxA, inputZeroSale, inputA, catalogZeroSale,
    addrA]

/-- C7 witness: the snapshot correspondence instantiated on the 60+50
scenario. -/
theorem order_items_snapshot_witness :
    orderA.subtotal = (orderA.items.map (fun it => it.price * (it.quantity : ℚ))).sum
    ∧ orderA.items.length = inputA.items.length :=
  ⟨(order_items_snapshot ctxA inputA orderA createA_eq).2,
   ((order_items_snapshot ctxA inputA orderA createA_eq).1.length_eq).symm⟩

/-! ## Claim C8 — public tracking projection leaks only five fields -/

/-- C8: the public tracking endpoint's answer depends only on the five
projected fields — any two stored orders agreeing on `orderNumber`, `status`,
`paymentStatus`, `trackingNumber` and `createdAt` produce identical responses,
whatever their items, address, totals or owner. -/
theorem track_projection_noninterference (store1 store2 : String → Option Order)
    (num : String) (o1 o2 : Order)
    (h1 : store1 num = some o1) (h2 : store2 num = some o2)
    (hN : o1.orderNumber = o2.orderNumber) (hs : o1.status = o2.status)
    (hp : o1.paymentStatus = o2.paymentStatus)
    (ht : o1.trackingNumber = o2.trackingNumber)
    (hc : o1.createdAt = o2.createdAt) :
    trackOrderRoute store1 num = trackOrderRoute store2 num := by
  simp [trackOrderRoute, h1, h2, trackOrderResponse, hN, hs, hp, ht, hc]

/-- A stored order owned by a user, with items, totals and notes. -/
def orderPubA : Order :=
  { orderNumber := "ORD-202503-000042", user := some "u9",
    guestEmail := Option.none, items := itemsA, shippingAddress := addrA,
    subtotal := 110, shippingCost := 0, tax := 11, total := 121,
    status := .processing, paymentStatus := .paid,
    paymentMethod := some "card", paymentId := some "pay1",
    trackingNumber := some "TRK1", notes := some "leave at door",
    createdAt := 500 }

/-- A different shipping address. -/
def addrB : ShippingAddress :=
  { firstName := "Hari", lastName := "KC", email := "hari@mail.example",
    phone := "97", address := "Patan 9", city := some "Lalitpur",
    state := some "Bagmati", postalCode := some "44700", country := "Nepal" }

/-- A guest order agreeing with `orderPubA` only on the five public fields. -/
def orderPubB : Order :=
  { orderNumber := "ORD-202503-000042", user := Option.none,
    guestEmail := some "hari@mail.example", items := [],
    shippingAddress := addrB, subtotal := 9999, shippingCost := 10,
    tax := 42, total := 10051, status := .processing, paymentStatus := .paid,
    paymentMethod := Option.none, paymentId := Option.none,
    trackingNumber := some "TRK1", notes := Option.none, createdAt := 500 }

/-- C8 witness: two stores answering the same order number with orders that
differ in items, owner, address and totals yield identical public tracking
responses. -/
theorem track_projection_noninterference_witness :
    trackOrderRoute (fun _ => some orderPubA) "ORD-202503-000042"
      = trackOrderRoute (fun _ => some orderPubB) "ORD-202503-000042"
    ∧ orderPubA.items.length ≠ orderPubB.items.length
    ∧ orderPubA.subtotal ≠ orderPubB.subtotal
    ∧ orderPubA.user ≠ orderPubB.user
    ∧ orderPubA.shippingAddress ≠ orderPubB.shippingAddress :=
  ⟨track_projection_noninterference (fun _ => some orderPubA)
      (fun _ => some orderPubB) "ORD-202503-000042" orderPubA orderPubB
      rfl rfl rfl rfl rfl rfl rfl,
   by decide, by norm_num [orderPubA, orderPubB], by decide, by decide⟩

/-! ## Claim C9 — addTrackingNumber is a pure field set -/

/-- C9: under the current status enumeration, `addTrackingNumber` sets only
`trackingNumber` — status included, every other field is unchanged — while
the older service variant paired with the `shipped`-bearing enumeration
additionally forces `status := shipped`. -/
theorem add_tracking_number_frame (o : Order) (tn : String)
    (o5 : OrderG OrderStatusLegacy) :
    (OrderService.addTrackingNumber o tn).trackingNumber = some tn
    ∧ (OrderService.addTrackingNumber o tn).status = o.status
    ∧ (OrderService.addTrackingNumber o tn).orderNumber = o.orderNumber
    ∧ (OrderService.addTrackingNumber o tn).user = o.user
    ∧ (OrderService.addTrackingNumber o tn).guestEmail = o.guestEmail
    ∧ (OrderService.addTrackingNumber o tn).items = o.items
    ∧ (OrderService.addTrackingNumber o tn).shippingAddress = o.shippingAddress
    ∧ (OrderService.addTrackingNumber o tn).subtotal = o.subtotal
    ∧ (OrderService.addTrackingNumber o tn).shippingCost = o.shippingCost
    ∧ (OrderService.addTrackingNumber o tn).tax = o.tax
    ∧ (OrderService.addTrackingNumber o tn).total = o.total
    ∧ (OrderService.addTrackingNumber o tn).paymentStatus = o.paymentStatus
    ∧ (OrderService.addTrackingNumber o tn).paymentMethod = o.paymentMethod
    ∧ (OrderService.addTrackingNumber o tn).paymentId = o.paymentId
    ∧ (OrderService.addTrackingNumber o tn).notes = o.notes
    ∧ (OrderService.addTrackingNumber o tn).createdAt = o.createdAt
    ∧ (OrderService.addTrackingNumberLegacy o5 tn).status = OrderStatusLegacy.shipped
    ∧ (OrderService.addTrackingNumberLegacy o5 tn).trackingNumber = some tn
    ∧ (OrderService.addTrackingNumberLegacy o5 tn).total = o5.total
    ∧ (OrderService.addTrackingNumberLegacy o5 tn).paymentStatus = o5.paymentStatus :=
  ⟨rfl, rfl, rfl, rfl, rfl, rfl, rfl, rfl, rfl, rfl, rfl, rfl, rfl, rfl, rfl,
   rfl, rfl, rfl, rfl, rfl⟩

/-! ## Claim C10 — owner designation of publicly created orders -/

/-- Owner fields of a successfully created order, read off the constructed
document: `user` is the (truthy) input user id, `guestEmail` is copied. -/
theorem create_ok_user_guest (ctx : CreateContext) (input : CreateOrderInput)
    (o : Order) (hc : (OrderService.create ctx input).1 = .ok o) :
    o.user = (match input.userId with
              | some u => if u = "" then Option.none else some u
              | Option.none => Option.none)
    ∧ o.guestEmail = input.guestEmail := by
  obtain ⟨items, st, hb, hs, ho⟩ := create_ok_inv ctx input o hc
  subst ho
  exact ⟨rfl, rfl⟩

/-- C10: an order created through `POST /` stores the verified caller's user
id and no guest email when the presented credential verifies (with the
nonempty subject id every issued credential carries), and stores no user id
with `guestEmail` equal to the shipping address email whenever `optionalAuth`
leaves the request unauthenticated (no token, or an invalid/expired one,
which is silently ignored); under the nonempty-subject-id premise exactly one
owner designation is present. -/
theorem create_order_route_owner (env : AuthEnv) (ctx : CreateContext)
    (token? : Option String) (body : CreateOrderBody) (o : Order)
    (hc : (createOrderRoute env ctx token? body).1 = .ok o) :
    (∀ t payload, token? = some t → t ≠ "" → env.verify t = some payload →
      payload.userId ≠ "" →
      o.user = some payload.userId ∧ o.guestEmail = Option.none)
    ∧ (optionalAuth env token? = Option.none →
      o.user = Option.none ∧ o.guestEmail = some body.shippingAddress.email)
    ∧ ((∀ t payload, token? = some t → env.verify t = some payload →
        payload.userId ≠ "") →
      ((o.user.isSome = true ∧ o.guestEmail = Option.none)
        ∨ (o.user = Option.none ∧ o.guestEmail.isSome = true))) := by
  simp only [createOrderRoute] at hc
  have hug := create_ok_user_guest _ _ _ hc
  refine ⟨?_, ?_, ?_⟩
  · intro t payload hteq htne hver hun
    subst hteq
    have hopt : optionalAuth env (some t) = some payload := by
      simp [optionalAuth, htne, hver]
    rw [hug.1, hug.2]
    simp [hopt, hun]
  · intro hopt
    rw [hug.1, hug.2]
    simp [hopt]
  · intro hsafe
    cases hopt : optionalAuth env token? with
    | none =>
      right
      rw [hug.1, hug.2]
      simp [hopt]
    | some payload =>
      left
      have hun : payload.userId ≠ "" := by
        cases token? with
        | none => simp [optionalAuth] at hopt
        | some t =>
          by_cases htne : t = ""
          · subst htne; simp [optionalAuth] at hopt
          · have hver : env.verify t = some payload := by
              simpa [optionalAuth, htne] using hopt
            exact hsafe t payload rfl hver
      rw [hug.1, hug.2]
      simp [hopt, hun]

/-- Verifier accepting exactly one issued credential for user `u42`. -/
def envVerify : AuthEnv :=
  { verify := fun t =>
      if t = "tok-u42" then
        some { userId := "u42", email := "u42@mail.example", role := "customer" }
      else Option.none
    findUserById := fun _ => Option.none
    allowedAdminEmails := [] }

/-- Request body of the public creation scenario. -/
def bodyG : CreateOrderBody :=
  { items := inputA.items, shippingAddress := addrA, paymentMethod := Option.none }

/-- Creation input as composed by the route for the authenticated caller. -/
def inputAuth : CreateOrderInput :=
  { userId := some "u42", guestEmail := Option.none, items := inputA.items,
    shippingAddress := addrA, paymentMethod := Option.none }

/-- The order created for the authenticated caller. -/
def orderAuth : Order := mkOrder ctxA inputAuth itemsA 110

/-- C10 witness: the same body submitted with a verifying credential stores
`user = u42` and no guest email; submitted without a token it stores no user
and `guestEmail` equal to the shipping address email. -/
theorem create_order_route_owner_witness :
    (createOrderRoute envVerify ctxA (some "tok-u42") bodyG).1 = Except.ok orderAuth
    ∧ orderAuth.user = some "u42"
    ∧ orderAuth.guestEmail = Option.none
    ∧ (createOrderRoute envVerify ctxA Option.none bodyG).1 = Except.ok orderA
    ∧ orderA.user = Option.none
    ∧ orderA.guestEmail = some "gita@mail.example" := by
  have h1 : (createOrderRoute envVerify ctxA (some "tok-u42") bodyG).1
      = Except.ok orderAuth := by
    simp [createOrderRoute, optionalAuth, OrderService.create, buildOrderItems,
      unitPrice, mkOrder, jsOrStr, envVerify, ctxA, bodyG, inputA, catalogA,
      addrA, orderAuth, inputAuth, itemsA]
    norm_num
  have h2 : (createOrderRoute envVerify ctxA Option.none bodyG).1
      = Except.ok orderA := by
    simp [createOrderRoute, optionalAuth, OrderService.create, buildOrderItems,
      unitPrice, mkOrder, jsOrStr, envVerify, ctxA, bodyG, inputA, catalogA,
      addrA, orderA, itemsA]
    norm_num
  have hAuth := (create_order_route_owner envVerify ctxA (some "tok-u42") bodyG
    orderAuth h1).1 "tok-u42"
    { userId := "u42", email := "u42@mail.example", role := "customer" }
    rfl (by decide) rfl (by decide)
  have hGuest := (create_order_route_owner envVerify ctxA Option.none bodyG
    orderA h2).2.1 rfl
  exact ⟨h1, hAuth.1, hAuth.2, h2, hGuest.1, hGuest.2⟩

end ECommerce
